import Mathlib

/-!
Shallow embedding of the radyo peer-to-peer call program
(src/radyo/src: phone.rs, call.rs, audio.rs, modes.rs) and proofs of the
specification claims about it.

Byte streams are modelled as lists of naturals below 256; fallible reads
and writes are modelled by Option and Except; the process-wide atomic
admission flag is modelled by explicit Bool state threading; the tokio
select between termination sources is modelled by a winner parameter
naming which branch became ready first.
-/

namespace Radyo

/-- Bytes of an ASCII string, as naturals. -/
def strBytes (s : String) : List Nat := s.toList.map Char.toNat

/-! ## Control channel codec (src/radyo/src/phone.rs, CallMessage) -/

/-- The CallMessage enum from phone.rs: protocol control messages. -/
inductive CallMessage
  | incomingCall
  | callAnswered
  | callDeclined
  | callNotAnswered
  | hangup
  | voiceData (size : Nat)
  deriving DecidableEq, Repr

/-- Little-endian 4-byte encoding of a u32 value, as in size.to_le_bytes(). -/
def u32ToLE (n : Nat) : List Nat :=
  [n % 256, (n / 256) % 256, (n / 65536) % 256, (n / 16777216) % 256]

/-- Reassembling a u32 from its little-endian bytes, as in u32::from_le_bytes. -/
def u32FromLE (b0 b1 b2 b3 : Nat) : Nat :=
  b0 + 256 * b1 + 65536 * b2 + 16777216 * b3

/-- CallMessage::send from phone.rs: 1-byte discriminator, then for
VoiceData the 4-byte little-endian size. The produced bytes are returned. -/
def CallMessage.send : CallMessage → List Nat
  | .incomingCall => [0]
  | .callAnswered => [1]
  | .callDeclined => [2]
  | .callNotAnswered => [3]
  | .hangup => [4]
  | .voiceData size => 5 :: u32ToLE size

/-- Decode errors of CallMessage::recv: an unknown discriminator carrying
the offending byte, or a stream that ends before the needed bytes. -/
inductive DecodeError
  | unknownType (b : Nat)
  | shortRead
  deriving DecidableEq, Repr

/-- The human-readable error message attached by recv, as in the source
anyhow message for an unknown discriminator. -/
def DecodeError.message : DecodeError → String
  | .unknownType b => "Unknown message type: " ++ toString b
  | .shortRead => "stream ended early"

/-- CallMessage::recv from phone.rs: read one discriminator byte, dispatch
on its value, and for VoiceData read four more bytes, little-endian.
Unknown discriminators are a hard error carrying the byte. Returns the
decoded message and the remaining stream. -/
def CallMessage.recv : List Nat → Except DecodeError (CallMessage × List Nat)
  | [] => .error .shortRead
  | b :: rest =>
    match b with
    | 0 => .ok (.incomingCall, rest)
    | 1 => .ok (.callAnswered, rest)
    | 2 => .ok (.callDeclined, rest)
    | 3 => .ok (.callNotAnswered, rest)
    | 4 => .ok (.hangup, rest)
    | 5 =>
      match rest with
      | b0 :: b1 :: b2 :: b3 :: rest2 => .ok (.voiceData (u32FromLE b0 b1 b2 b3), rest2)
      | _ => .error .shortRead
    | n + 6 => .error (.unknownType (n + 6))

/-- A message is well formed when its VoiceData size fits in a u32, the
type the source stores it in. -/
def CallMessage.wf : CallMessage → Prop
  | .voiceData size => size < 4294967296
  | _ => True

instance (m : CallMessage) : Decidable m.wf := by
  cases m <;> simp [CallMessage.wf] <;> infer_instance

/-! ## Admission gate (src/radyo/src/call.rs, CallManager and CALL_IN_PROGRESS) -/

/-- CallManager::try_acquire_call from call.rs: compare-and-set of the
CALL_IN_PROGRESS flag from false to true; returns whether the exchange
succeeded together with the new value of the flag. -/
def try_acquire_call (g : Bool) : Bool × Bool :=
  if g then (false, g) else (true, true)

/-- CallManager::release_call from call.rs: unconditionally stores false. -/
def release_call (_g : Bool) : Bool := false

/-- CallManager::get_ringtone from call.rs: the stored caller preference,
or the default name when none was ever set. -/
def get_ringtone (callerRingtone : Option String) : String :=
  callerRingtone.getD "lost_woods"

/-! ## Filesystem model and ringtone loading (phone.rs Ringtone, audio.rs) -/

/-- A filesystem as the program observes it: an existence check and a
read, kept separate because std::fs::read can fail on a path whose
existence check succeeded (a directory, a permission error), and a real
filesystem only guarantees that reading an absent path fails. -/
structure Fs where
  pathExists : String → Bool
  readFile : String → Except Unit (List Nat)

/-- Path::new(p).exists() over the filesystem model. -/
def fsExists (fs : Fs) (p : String) : Bool := fs.pathExists p

/-- std::fs::read over the filesystem model. -/
def fsRead (fs : Fs) (p : String) : Except Unit (List Nat) := fs.readFile p

/-- The path a ringtone name resolves to, as formatted in phone.rs and
audio.rs. -/
def ringtonePath (name : String) : String := "ringtons/" ++ name ++ ".mp3"

/-- The fixed fallback asset path used when the requested one is absent. -/
def fallbackPath : String := "ringtons/lost_woods.mp3"

/-- The Ringtone struct from phone.rs. -/
structure Ringtone where
  name : String
  data : List Nat
  deriving DecidableEq, Repr

/-- Ringtone::load from phone.rs: read the requested asset when it exists,
otherwise read the fixed fallback asset; either read error propagates. -/
def Ringtone.load (fs : Fs) (name : String) : Except Unit Ringtone :=
  let file_path := ringtonePath name
  let dataE := if fsExists fs file_path then fsRead fs file_path else fsRead fs fallbackPath
  dataE.map (fun d => { name := name, data := d })

/-- The file-loading step of AudioManager::play_ringtone_async in audio.rs,
which duplicates the Ringtone::load fallback logic on the raw bytes. -/
def loadRingtoneData (fs : Fs) (name : String) : Except Unit (List Nat) :=
  let file_path := ringtonePath name
  if fsExists fs file_path then fsRead fs file_path else fsRead fs fallbackPath

/-! ## Audio manager (src/radyo/src/audio.rs) -/

/-- The AudioManager struct: a stop flag shared with the playback thread. -/
structure AudioManager where
  stop_flag : Bool
  deriving DecidableEq, Repr

/-- AudioManager::new: stop flag initially false. -/
def AudioManager.new : AudioManager := { stop_flag := false }

/-- AudioManager::stop: store true into the stop flag. -/
def AudioManager.stop (_a : AudioManager) : AudioManager := { stop_flag := true }

/-- AudioManager::is_stopped: load the stop flag. -/
def AudioManager.is_stopped (a : AudioManager) : Bool := a.stop_flag

/-- Exit reasons of the playback loop spawned by play_ringtone_async:
the sink drained naturally, or the stop flag was observed set. -/
inductive AudioExit
  | finished
  | stoppedBySignal
  deriving DecidableEq, Repr

/-- The playback thread loop of play_ringtone_async (audio.rs): at each
check it first tests whether the sink is empty, then whether the stop flag
is set, and otherwise sleeps and checks again. sinkEmpty and stopFlagAt
give those observations at the n-th check; fuel bounds the number of
checks so the loop is a total function, with none meaning the loop was
still running after fuel checks. -/
def audioLoop (sinkEmpty stopFlagAt : Nat → Bool) : Nat → Nat → Option AudioExit
  | 0, _ => none
  | fuel + 1, k =>
    if sinkEmpty k then some .finished
    else if stopFlagAt k then some .stoppedBySignal
    else audioLoop sinkEmpty stopFlagAt fuel (k + 1)

/-! ## Session events

Observable effects of a listener call session, in program order. -/

/-- Events a session emits: gate operations, stream writes (with the bytes
written and whether the transport accepted them), half-close of the send
stream, ringtone loading, sink start, and sink stop requests. -/
inductive Ev
  | acquireOk
  | acquireFail
  | release
  | write (bytes : List Nat) (ok : Bool)
  | finishSend
  | loadMedia (name : String)
  | startSink
  | stopAudio
  deriving DecidableEq, Repr

/-- Occurrences of one event in a trace. -/
def countEv (e : Ev) (t : List Ev) : Nat := t.count e

/-- The fixed invite marker bytes. -/
def incomingCallBytes : List Nat := strBytes "INCOMING_CALL"

/-- The fixed busy marker bytes. -/
def busyBytes : List Nat := strBytes "BUSY"

/-- The fixed hangup marker bytes. -/
def hangupBytes : List Nat := strBytes "HANGUP"

/-- The fixed hangup acknowledgment marker bytes. -/
def hangupAckBytes : List Nat := strBytes "HANGUP_ACK"

/-! ## play_caller_ringtone_with_hangup_ack (src/radyo/src/call.rs) -/

/-- Which branch of the tokio select in play_caller_ringtone_with_hangup_ack
becomes ready first: the dummy audio task, the peer hangup monitor (with
the outcome of its 6-byte read: none is a transport error, some gives the
bytes read), the per-call hangup channel, or Ctrl+C. -/
inductive SelectWinner
  | audioTask
  | peerHangup (readRes : Option (List Nat))
  | callHangupRx
  | ctrlC
  deriving DecidableEq, Repr

/-- Environment of one run of play_caller_ringtone_with_hangup_ack: which
select branch wins and whether the hangup-ack write is accepted by the
transport. -/
structure PlayEnv where
  winner : SelectWinner
  ackWriteOk : Bool
  deriving DecidableEq, Repr

/-- Result of play_caller_ringtone_with_hangup_ack: its event trace, the
audio manager holding the stop flag as the playback thread sees it, and
the returned value. -/
structure PlayResult where
  trace : List Ev
  audio : AudioManager
  result : Except Unit Unit
  deriving Repr

/-- play_caller_ringtone_with_hangup_ack from call.rs: start the ringtone
via AudioManager::play_ringtone_async (a load failure propagates as the
error of the function before any sink starts), then race the four select
branches. Only the peer-hangup branch with the exact HANGUP bytes stops
the audio and writes HANGUP_ACK, and a failure of that write is logged
but not returned; the channel and Ctrl+C branches stop the audio; the
audio-task branch does nothing more. Every post-load path returns Ok. -/
def play_caller_ringtone_with_hangup_ack (fs : Fs) (ringtone_name : String)
    (env : PlayEnv) : PlayResult :=
  let audio_manager := AudioManager.new
  match loadRingtoneData fs ringtone_name with
  | .error _ => { trace := [], audio := audio_manager, result := .error () }
  | .ok _ =>
    let pre := [Ev.loadMedia ringtone_name, Ev.startSink]
    match env.winner with
    | .audioTask => { trace := pre, audio := audio_manager, result := .ok () }
    | .peerHangup r =>
      if r = some hangupBytes then
        { trace := pre ++ [Ev.stopAudio, Ev.write hangupAckBytes env.ackWriteOk],
          audio := audio_manager.stop,
          result := .ok () }
      else
        { trace := pre, audio := audio_manager, result := .ok () }
    | .callHangupRx =>
      { trace := pre ++ [Ev.stopAudio], audio := audio_manager.stop, result := .ok () }
    | .ctrlC =>
      { trace := pre ++ [Ev.stopAudio], audio := audio_manager.stop, result := .ok () }

/-! ## handle_incoming_call (src/radyo/src/call.rs) -/

/-- Environment of one run of handle_incoming_call: whether accept_bi
succeeds, the outcome of the 13-byte invite read (none is a read error),
whether the busy write and the send-stream finish succeed, and the
environment of the inner play call. -/
structure CallEnv where
  acceptOk : Bool
  inviteRead : Option (List Nat)
  busyWriteOk : Bool
  finishOk : Bool
  playEnv : PlayEnv
  deriving DecidableEq, Repr

/-- Result of handle_incoming_call: its event trace, the CALL_IN_PROGRESS
flag after the run, and the returned value. -/
structure HandleResult where
  trace : List Ev
  gate : Bool
  result : Except Unit Unit
  deriving Repr

/-- handle_incoming_call from call.rs: accept the stream, read the 13-byte
invite marker, and only when it equals INCOMING_CALL touch the gate. A
failed try_acquire_call writes BUSY and finishes the send stream,
returning Ok and leaving the gate as it was. A successful acquire plays
the caller ringtone and then always releases the gate before
propagating the play result. Any other 13 bytes fall through to Ok with
no effects. -/
def handle_incoming_call (fs : Fs) (callerRingtone : Option String)
    (gate : Bool) (env : CallEnv) : HandleResult :=
  if !env.acceptOk then { trace := [], gate := gate, result := .error () }
  else
    match env.inviteRead with
    | none => { trace := [], gate := gate, result := .error () }
    | some buffer =>
      if buffer = incomingCallBytes then
        let acq := try_acquire_call gate
        if !acq.1 then
          if env.busyWriteOk then
            if env.finishOk then
              { trace := [Ev.acquireFail, Ev.write busyBytes true, Ev.finishSend],
                gate := acq.2, result := .ok () }
            else
              { trace := [Ev.acquireFail, Ev.write busyBytes true],
                gate := acq.2, result := .error () }
          else
            { trace := [Ev.acquireFail, Ev.write busyBytes false],
              gate := acq.2, result := .error () }
        else
          let ringtone_name := get_ringtone callerRingtone
          let p := play_caller_ringtone_with_hangup_ack fs ringtone_name env.playEnv
          { trace := Ev.acquireOk :: p.trace ++ [Ev.release],
            gate := release_call acq.2,
            result := p.result }
      else
        { trace := [], gate := gate, result := .ok () }

/-- A sequence of listener sessions run one after the other, threading the
CALL_IN_PROGRESS flag and concatenating the traces. -/
def runSessions (fs : Fs) (callerRingtone : Option String) :
    Bool → List CallEnv → List Ev × Bool
  | gate, [] => ([], gate)
  | gate, env :: envs =>
    let h := handle_incoming_call fs callerRingtone gate env
    let rest := runSessions fs callerRingtone h.gate envs
    (h.trace ++ rest.1, rest.2)

/-! ## Dialer side: peer_mode Ctrl+C branch (src/radyo/src/modes.rs) -/

/-- Outcome of an awaited stream read: it completed with bytes, it failed,
or it never completes (the peer neither sends nor closes). -/
inductive ReadOutcome
  | ok (bytes : List Nat)
  | err
  | pending
  deriving DecidableEq, Repr

/-- How the dialer session ends after a local hangup: the ack of the listener
was read, or the missing or malformed acknowledgment was logged. -/
inductive DialerEnd
  | ackClean
  | ackMissing
  deriving DecidableEq, Repr

/-- The Ctrl+C branch of the select in peer_mode (modes.rs): write HANGUP
(a write failure propagates as the session error), then await read_exact
of 10 bytes with no timeout around the await — so when the read never
completes the branch never returns, modelled as none. A completed read of
exactly HANGUP_ACK ends clean; any other completed read or read error is
logged and the branch still ends Ok. -/
def peer_mode_ctrlc_branch (hangupWriteOk : Bool) (ackRead : ReadOutcome) :
    Option (Except Unit DialerEnd) :=
  if !hangupWriteOk then some (.error ())
  else
    match ackRead with
    | .pending => none
    | .ok buf => if buf = hangupAckBytes then some (.ok .ackClean) else some (.ok .ackMissing)
    | .err => some (.ok .ackMissing)

/-! ## Helper lemmas -/

/-- The play subroutine never emits a gate acquire or release event: the
gate is touched only by handle_incoming_call itself. -/
theorem play_trace_gate_free (fs : Fs) (name : String) (env : PlayEnv) :
    countEv Ev.acquireOk (play_caller_ringtone_with_hangup_ack fs name env).trace = 0 ∧
    countEv Ev.release (play_caller_ringtone_with_hangup_ack fs name env).trace = 0 := by
  unfold play_caller_ringtone_with_hangup_ack
  cases hl : loadRingtoneData fs name with
  | error e => simp [countEv]
  | ok d =>
    cases hw : env.winner with
    | audioTask => simp [countEv]
    | peerHangup r => by_cases h : r = some hangupBytes <;> simp [h, countEv]
    | callHangupRx => simp [countEv]
    | ctrlC => simp [countEv]

/-- Each single listener session emits as many release events as successful
acquire events. -/
theorem session_balance (fs : Fs) (cr : Option String) (gate : Bool) (env : CallEnv) :
    countEv Ev.acquireOk (handle_incoming_call fs cr gate env).trace =
      countEv Ev.release (handle_incoming_call fs cr gate env).trace := by
  unfold handle_incoming_call
  cases hacc : env.acceptOk with
  | false => simp [countEv]
  | true =>
    cases hr : env.inviteRead with
    | none => simp [countEv]
    | some buffer =>
      by_cases hb : buffer = incomingCallBytes
      · simp only [hb, if_pos, Bool.not_true, Bool.false_eq_true, if_false]
        cases gate with
        | true =>
          by_cases hw : env.busyWriteOk <;> by_cases hf : env.finishOk <;>
            simp [try_acquire_call, hw, hf, countEv]
        | false =>
          have hp := play_trace_gate_free fs (get_ringtone cr) env.playEnv
          simp only [try_acquire_call, countEv] at hp ⊢
          simp [List.count_cons, List.count_append, hp.1, hp.2]
      · simp [hb, countEv]

/-! ## Claim theorems -/

/-- C1: every listener session that successfully acquires the admission
gate runs release_call exactly once before the handler returns, on every
control-flow exit including the path where the ringtone-playing subroutine
returns an error; hence over every single session and every sequence of
sessions, the counts of successful acquires and of releases in the
emitted trace are equal. -/
theorem acquire_release_balanced :
    (∀ (fs : Fs) (cr : Option String) (gate : Bool) (env : CallEnv),
      countEv Ev.acquireOk (handle_incoming_call fs cr gate env).trace =
        countEv Ev.release (handle_incoming_call fs cr gate env).trace) ∧
    (∀ (fs : Fs) (cr : Option String) (gate : Bool) (envs : List CallEnv),
      countEv Ev.acquireOk (runSessions fs cr gate envs).1 =
        countEv Ev.release (runSessions fs cr gate envs).1) := by
  refine ⟨session_balance, ?_⟩
  intro fs cr gate envs
  induction envs generalizing gate with
  | nil => simp [runSessions, countEv]
  | cons e es ih =>
    have h1 := session_balance fs cr gate e
    have h2 := ih (handle_incoming_call fs cr gate e).gate
    simp only [runSessions, countEv, List.count_append] at h1 h2 ⊢
    omega

/-- C2: while the gate is occupied, try_acquire_call returns false and
leaves the gate occupied; after release_call, the next try_acquire_call
returns true and sets the gate occupied. -/
theorem admission_gate_state_machine :
    (try_acquire_call true = (false, true)) ∧
    (∀ g : Bool, try_acquire_call (release_call g) = (true, true)) :=
  ⟨rfl, fun _g => rfl⟩

/-- C3: when the invite marker is read correctly but the gate grant fails
(gate already occupied), the listener writes exactly the BUSY marker,
finishes its send stream, and returns Ok; the trace holds no loadMedia,
startSink or other write event, and the gate stays occupied. -/
theorem busy_rejection (fs : Fs) (cr : Option String) (env : CallEnv)
    (hacc : env.acceptOk = true)
    (hread : env.inviteRead = some incomingCallBytes)
    (hw : env.busyWriteOk = true) (hf : env.finishOk = true) :
    handle_incoming_call fs cr true env =
      { trace := [Ev.acquireFail, Ev.write busyBytes true, Ev.finishSend],
        gate := true, result := .ok () } := by
  unfold handle_incoming_call
  simp [hacc, hread, hw, hf, try_acquire_call]

/-- Witness environment: a well-formed invite arriving while the gate is
held, with a working transport. -/
def envBusyW : CallEnv :=
  { acceptOk := true, inviteRead := some incomingCallBytes,
    busyWriteOk := true, finishOk := true,
    playEnv := { winner := .audioTask, ackWriteOk := true } }

/-- Witness filesystem: only the fallback asset exists and is readable,
with content [1, 2, 3]. -/
def fsW : Fs :=
  { pathExists := fun p => p == fallbackPath
    readFile := fun p => if p == fallbackPath then .ok [1, 2, 3] else .error () }

/-- Witness for C3 at a concrete environment. -/
theorem busy_rejection_witness :
    handle_incoming_call fsW none true envBusyW =
      { trace := [Ev.acquireFail, Ev.write busyBytes true, Ev.finishSend],
        gate := true, result := .ok () } :=
  busy_rejection fsW none envBusyW rfl rfl rfl rfl

/-- C9: when exactly 13 bytes are read but they differ from the
INCOMING_CALL marker, handle_incoming_call returns Ok with an empty trace:
the gate is never touched, nothing is written, no media is loaded and no
sink is started, and the gate value is unchanged. -/
theorem unexpected_invite_silent_noop (fs : Fs) (cr : Option String)
    (gate : Bool) (env : CallEnv) (buf : List Nat)
    (hacc : env.acceptOk = true)
    (hread : env.inviteRead = some buf)
    (_hlen : buf.length = 13)
    (hne : buf ≠ incomingCallBytes) :
    handle_incoming_call fs cr gate env =
      { trace := [], gate := gate, result := .ok () } := by
  unfold handle_incoming_call
  simp [hacc, hread, hne]

/-- Witness environment for C9: 13 zero bytes instead of the marker. -/
def envNoopW : CallEnv :=
  { acceptOk := true, inviteRead := some (List.replicate 13 0),
    busyWriteOk := true, finishOk := true,
    playEnv := { winner := .audioTask, ackWriteOk := true } }

/-- Witness for C9 at a concrete environment. -/
theorem unexpected_invite_silent_noop_witness :
    handle_incoming_call fsW none false envNoopW =
      { trace := [], gate := false, result := .ok () } :=
  unexpected_invite_silent_noop fsW none false envNoopW (List.replicate 13 0)
    rfl rfl (by decide) (by decide)

/-- C4: when the peer-hangup branch wins the select with a complete HANGUP
marker, the session stops the audio (the stop flag becomes set), then
writes the HANGUP_ACK marker, and returns Ok whether or not that ack
write succeeds (env.ackWriteOk is arbitrary). -/
theorem peer_hangup_stops_and_acks (fs : Fs) (name : String) (env : PlayEnv)
    (bytes : List Nat)
    (hload : loadRingtoneData fs name = .ok bytes)
    (hwin : env.winner = SelectWinner.peerHangup (some hangupBytes)) :
    play_caller_ringtone_with_hangup_ack fs name env =
      { trace := [Ev.loadMedia name, Ev.startSink, Ev.stopAudio,
                  Ev.write hangupAckBytes env.ackWriteOk],
        audio := AudioManager.new.stop,
        result := .ok () } ∧
    (play_caller_ringtone_with_hangup_ack fs name env).audio.is_stopped = true := by
  unfold play_caller_ringtone_with_hangup_ack
  rw [hload, hwin]
  simp [AudioManager.is_stopped, AudioManager.stop]

/-- Witness environment for C4: peer hangup wins with the exact marker and
the ack write fails, exercising the soft-error case. -/
def envHangupW : PlayEnv :=
  { winner := .peerHangup (some hangupBytes), ackWriteOk := false }

/-- Witness for C4 at a concrete input: fallback asset loads, peer sends
HANGUP, ack write fails, session still ends Ok with the stop flag set. -/
theorem peer_hangup_stops_and_acks_witness :
    play_caller_ringtone_with_hangup_ack fsW "zelda" envHangupW =
      { trace := [Ev.loadMedia "zelda", Ev.startSink, Ev.stopAudio,
                  Ev.write hangupAckBytes false],
        audio := AudioManager.new.stop,
        result := .ok () } ∧
    (play_caller_ringtone_with_hangup_ack fsW "zelda" envHangupW).audio.is_stopped = true :=
  peer_hangup_stops_and_acks fsW "zelda" envHangupW [1, 2, 3] rfl rfl

/-- C10: when the peer-hangup branch wins its read but the outcome is an
error or any 6 bytes other than HANGUP, the session ends with no stopAudio
event, no ack write, an unset stop flag, and an Ok result; and the
playback loop, never observing a set stop flag, can only exit by draining
its payload, which it does once the sink reports empty. -/
theorem missed_hangup_leaves_audio_running :
    (∀ (fs : Fs) (name : String) (env : PlayEnv) (r : Option (List Nat))
      (bytes : List Nat),
      loadRingtoneData fs name = .ok bytes →
      env.winner = SelectWinner.peerHangup r →
      r ≠ some hangupBytes →
      play_caller_ringtone_with_hangup_ack fs name env =
        { trace := [Ev.loadMedia name, Ev.startSink],
          audio := AudioManager.new,
          result := .ok () } ∧
      (play_caller_ringtone_with_hangup_ack fs name env).audio.is_stopped = false) ∧
    (∀ (sinkEmpty stopFlagAt : Nat → Bool) (fuel k : Nat),
      (∀ n, stopFlagAt n = false) →
      audioLoop sinkEmpty stopFlagAt fuel k ≠ some AudioExit.stoppedBySignal) ∧
    (∀ (sinkEmpty stopFlagAt : Nat → Bool) (k j fuel : Nat),
      (∀ n, stopFlagAt n = false) →
      sinkEmpty (k + j) = true → j < fuel →
      audioLoop sinkEmpty stopFlagAt fuel k = some AudioExit.finished) := by
  refine ⟨?_, ?_, ?_⟩
  · intro fs name env r bytes hload hwin hne
    unfold play_caller_ringtone_with_hangup_ack
    rw [hload, hwin]
    simp [hne, AudioManager.is_stopped, AudioManager.new]
  · intro sinkEmpty stopFlagAt fuel
    induction fuel with
    | zero => intro k _ h; exact Option.noConfusion h
    | succ f ih =>
      intro k hstop h
      rw [audioLoop] at h
      by_cases he : sinkEmpty k
      · rw [if_pos he] at h
        exact AudioExit.noConfusion (Option.some.inj h)
      · rw [if_neg he, hstop k, if_neg (Bool.false_ne_true)] at h
        exact ih (k + 1) hstop h
  · intro sinkEmpty stopFlagAt k j
    induction j generalizing k with
    | zero =>
      intro fuel hstop hempty hlt
      cases fuel with
      | zero => exact absurd hlt (by omega)
      | succ f =>
        rw [audioLoop, if_pos (by simpa using hempty)]
    | succ j ih =>
      intro fuel hstop hempty hlt
      cases fuel with
      | zero => exact absurd hlt (by omega)
      | succ f =>
        rw [audioLoop]
        by_cases he : sinkEmpty k
        · rw [if_pos he]
        · rw [if_neg he, hstop k, if_neg (Bool.false_ne_true)]
          exact ih (k + 1) f hstop (by rw [show k + 1 + j = k + (j + 1) by omega]; exact hempty)
            (by omega)

/-- Witness environment for C10: peer read completes with 6 bytes that are
not the HANGUP marker. -/
def envWrongBytesW : PlayEnv :=
  { winner := .peerHangup (some (List.replicate 6 0)), ackWriteOk := true }

/-- Witness for C10 at concrete inputs: wrong hangup bytes leave the stop
flag unset, and a loop whose sink empties at check 3 under a never-set
stop flag finishes naturally. -/
theorem missed_hangup_leaves_audio_running_witness :
    (play_caller_ringtone_with_hangup_ack fsW "zelda" envWrongBytesW =
      { trace := [Ev.loadMedia "zelda", Ev.startSink],
        audio := AudioManager.new,
        result := .ok () } ∧
     (play_caller_ringtone_with_hangup_ack fsW "zelda" envWrongBytesW).audio.is_stopped = false) ∧
    audioLoop (fun n => n == 3) (fun _ => false) 10 0 = some AudioExit.finished :=
  ⟨missed_hangup_leaves_audio_running.1 fsW "zelda" envWrongBytesW
      (some (List.replicate 6 0)) [1, 2, 3] rfl rfl (by decide),
   missed_hangup_leaves_audio_running.2.2 (fun n => n == 3) (fun _ => false) 0 3 10
      (fun _n => rfl) (by decide) (by decide)⟩

/-- A filesystem on which the requested asset exists but reading it
fails (for example a directory at that path, or a permission error),
while the fallback asset is perfectly readable. -/
def fsBroken : Fs :=
  { pathExists := fun p => p == ringtonePath "granted" || p == fallbackPath
    readFile := fun p => if p == fallbackPath then .ok [1, 2, 3] else .error () }

/-- Counterexample to C8: on fsBroken the requested path exists, so load
reads it, the read fails, and the error propagates at once — the fallback
is never consulted although it is readable. Load thus fails while the
fallback asset is readable, refuting that load fails only if both the
requested and the fallback asset are unreadable. -/
theorem ringtone_load_skips_fallback_counterexample :
    Ringtone.load fsBroken "granted" = .error () ∧
    fsBroken.readFile fallbackPath = .ok [1, 2, 3] :=
  ⟨rfl, rfl⟩

/-- C8 as amended: the fallback is consulted only when the requested path
does not exist. When the requested name resolves to no asset and the
fallback is readable with content d, load returns that content as a
success; when the requested path does not exist and the fallback read
fails, load fails; when neither path exists, load fails as well (reading
an absent path fails on a real filesystem, the third hypothesis); and
when the requested path exists, load returns exactly the result of
reading it — in particular a failed read of an existing requested path
fails the load immediately, even when the fallback is readable. -/
theorem ringtone_load_fallback_amended (fs : Fs) (name : String) :
    (∀ d : List Nat, fs.pathExists (ringtonePath name) = false →
      fs.readFile fallbackPath = .ok d →
      Ringtone.load fs name = .ok { name := name, data := d }) ∧
    (fs.pathExists (ringtonePath name) = false →
      fs.readFile fallbackPath = .error () →
      Ringtone.load fs name = .error ()) ∧
    (fs.pathExists (ringtonePath name) = false →
      fs.pathExists fallbackPath = false →
      (∀ p, fs.pathExists p = false → fs.readFile p = .error ()) →
      Ringtone.load fs name = .error ()) ∧
    (fs.pathExists (ringtonePath name) = true →
      Ringtone.load fs name =
        (fs.readFile (ringtonePath name)).map (fun d => { name := name, data := d })) := by
  refine ⟨?_, ?_, ?_, ?_⟩
  · intro d hq hf
    unfold Ringtone.load fsExists fsRead
    simp [hq, hf, Except.map]
  · intro hq hf
    unfold Ringtone.load fsExists fsRead
    simp [hq, hf, Except.map]
  · intro hq hfe habs
    unfold Ringtone.load fsExists fsRead
    simp [hq, habs fallbackPath hfe, Except.map]
  · intro hq
    unfold Ringtone.load fsExists fsRead
    simp [hq]

/-- Witness for the amended C8 at a concrete input: the requested name
resolves to no asset, the fallback is readable with content [1, 2, 3],
and load succeeds with that content under the requested name. -/
theorem ringtone_load_fallback_amended_witness :
    Ringtone.load fsW "granted" = .ok { name := "granted", data := [1, 2, 3] } :=
  (ringtone_load_fallback_amended fsW "granted").1 [1, 2, 3] rfl rfl

/-- Little-endian u32 encode then decode is the identity below 2 ^ 32. -/
theorem u32_le_roundtrip (n : Nat) (h : n < 4294967296) :
    u32FromLE (n % 256) ((n / 256) % 256) ((n / 65536) % 256) ((n / 16777216) % 256) = n := by
  unfold u32FromLE
  omega

/-- C6: for every CallMessage whose VoiceData size fits in a u32
(including 0 and the u32 maximum), encoding with send and decoding the
produced bytes with recv yields back the same message and leaves the rest
of the stream untouched. -/
theorem callMessage_roundtrip (m : CallMessage) (rest : List Nat) (h : m.wf) :
    CallMessage.recv (m.send ++ rest) = .ok (m, rest) := by
  cases m with
  | voiceData size =>
    simp only [CallMessage.send, u32ToLE, List.cons_append, CallMessage.recv]
    rw [u32_le_roundtrip size h]
    simp
  | incomingCall => rfl
  | callAnswered => rfl
  | callDeclined => rfl
  | callNotAnswered => rfl
  | hangup => rfl

/-- Witness for C6 at the u32 maximum size with a nonempty remaining
stream, and at size 0. -/
theorem callMessage_roundtrip_witness :
    CallMessage.recv ((CallMessage.voiceData 4294967295).send ++ [9]) =
      .ok (CallMessage.voiceData 4294967295, [9]) ∧
    CallMessage.recv ((CallMessage.voiceData 0).send ++ []) =
      .ok (CallMessage.voiceData 0, []) :=
  ⟨callMessage_roundtrip (CallMessage.voiceData 4294967295) [9] (by decide),
   callMessage_roundtrip (CallMessage.voiceData 0) [] (by decide)⟩

/-- C7: decoding a stream whose first byte is any unrecognized
discriminator (every byte value above 5) yields the decode error carrying
exactly that byte, whose rendered message names the byte value; recv is a
total function, so it neither panics nor hangs, and it never returns a
successful decode there. -/
theorem recv_unknown_discriminator (b : Nat) (rest : List Nat)
    (h5 : 5 < b) (h256 : b < 256) :
    CallMessage.recv (b :: rest) = .error (.unknownType b) ∧
    (DecodeError.unknownType b).message = "Unknown message type: " ++ toString b := by
  obtain ⟨n, rfl⟩ : ∃ n, b = n + 6 := ⟨b - 6, by omega⟩
  exact ⟨rfl, rfl⟩

/-- Witness for C7 at the byte 0xFF with an empty tail. -/
theorem recv_unknown_discriminator_witness :
    CallMessage.recv (255 :: []) = .error (.unknownType 255) ∧
    (DecodeError.unknownType 255).message = "Unknown message type: " ++ toString 255 :=
  recv_unknown_discriminator 255 [] (by decide) (by decide)

/-- Counterexample to C5: with the HANGUP write accepted and a listener
that never sends the acknowledgment and never closes the stream (the ack
read stays pending forever), the Ctrl+C branch of peer_mode never
returns — there is no timeout around the ack read, so the session does
not terminate, contradicting the claimed bounded wait. -/
theorem dialer_ack_wait_unbounded_counterexample :
    peer_mode_ctrlc_branch true ReadOutcome.pending = none := rfl

/-- C5 as amended: after the local hangup writes the HANGUP marker, the
dialer waits for the acknowledgment with no timeout; whenever that read
completes with any bytes or fails (for example on peer disconnect), the
session terminates successfully, ending clean exactly on the HANGUP_ACK
bytes and otherwise merely logging the missing acknowledgment. -/
theorem dialer_ack_wait_amended (r : ReadOutcome) (hr : r ≠ ReadOutcome.pending) :
    peer_mode_ctrlc_branch true r =
      some (Except.ok
        (if r = ReadOutcome.ok hangupAckBytes then DialerEnd.ackClean
         else DialerEnd.ackMissing)) := by
  cases r with
  | pending => exact absurd rfl hr
  | err => rfl
  | ok buf =>
    unfold peer_mode_ctrlc_branch
    by_cases hbuf : buf = hangupAckBytes <;> simp [hbuf]

/-- Witness for the amended C5 at a concrete input: the ack read fails
(peer disconnected) and the dialer ends successfully with the missing
acknowledgment logged. -/
theorem dialer_ack_wait_amended_witness :
    peer_mode_ctrlc_branch true ReadOutcome.err =
      some (Except.ok DialerEnd.ackMissing) := by
  have h := dialer_ack_wait_amended ReadOutcome.err (by decide)
  simpa using h

end Radyo
